import Mathlib

/-!
Verification development for `src/packages/python-alt-text/app.py`, a small
FastAPI service that captions an uploaded image with a BLIP model and then
reshapes the caption into short alt text with a causal language model.

The model runtimes (BLIP, the GPT-2 style refiner, PIL image decoding) are
external nondeterministic components; we embed them as explicit events (a
successful decoded text, or an exception at a given program point).  All of the
service's own logic — the string post-processing of `refine_alt_text`, the
fallback policies, the request validation and response shaping of the `/alt`
endpoint, and the double-checked-locking model loaders — is translated
directly from the source.
-/

/-- Embeds the quote character that Python writes as a double quote. -/
def dquote : Char := Char.ofNat 34

/-- Embeds the quote character that Python writes as a single quote. -/
def squote : Char := Char.ofNat 39

/-- Python's `str.strip(chars)` / `str.strip()`: remove every leading and
trailing character satisfying `p`. -/
def pyStripChars (p : Char → Bool) (s : String) : String :=
  String.mk (((s.data.dropWhile p).reverse.dropWhile p).reverse)

/-- The stripping chain of `app.py` line 242:
`alt_text.strip('"').strip("'").strip()`. -/
def stripAll (s : String) : String :=
  pyStripChars Char.isWhitespace
    (pyStripChars (fun c => c == squote) (pyStripChars (fun c => c == dquote) s))

/-- Worker for Python's argument-less `str.split()`: split on runs of
whitespace, discarding empty pieces.  `acc` holds the characters of the word
currently being read, in reverse. -/
def splitWsAux : List Char → List Char → List (List Char)
  | [], acc => if acc = [] then [] else [acc.reverse]
  | c :: cs, acc =>
    if c.isWhitespace then
      if acc = [] then splitWsAux cs []
      else acc.reverse :: splitWsAux cs []
    else splitWsAux cs (c :: acc)

/-- The words of a character list, as Python's `str.split()` produces them. -/
def wordsCh (l : List Char) : List (List Char) :=
  splitWsAux l []

/-- Python's `str.split()` on a string. -/
def pySplitWs (s : String) : List String :=
  (wordsCh s.data).map String.mk

/-- Python's `" ".join(words)`. -/
def joinSp : List String → String
  | [] => ""
  | [w] => w
  | w :: ws => w ++ " " ++ joinSp ws

/-- The post-processing of `refine_alt_text` (app.py lines 233-245), applied to
the original caption and the text extracted from the model generation:

```python
words = alt_text.split()
if len(words) > 12:
    alt_text = " ".join(words[:10])
elif len(words) < 8:
    alt_text = caption_text
elif len(words) == 0:
    alt_text = caption_text
alt_text = alt_text.strip('"').strip("'").strip()
return alt_text or caption_text
```
-/
def refinePost (caption_text alt_text : String) : String :=
  let words := pySplitWs alt_text
  let alt1 :=
    if words.length > 12 then joinSp (words.take 10)
    else if words.length < 8 then caption_text
    else if words.length = 0 then caption_text
    else alt_text
  let alt2 := stripAll alt1
  if alt2 = "" then caption_text else alt2

/-- The prompt built inline at app.py line 206. -/
def refinePrompt (caption_text : String) : String :=
  "Create SEO-optimized alt text (8-12 words): " ++ caption_text ++ "\nAlt:"

/-- The extraction step of `refine_alt_text` (app.py lines 227-230): take the
text after the last `"Alt:"` marker when present, else delete the prompt from
the generation; in both cases strip surrounding whitespace. -/
def extractAlt (caption_text generated_text : String) : String :=
  let parts := generated_text.splitOn "Alt:"
  if parts.length ≥ 2 then
    pyStripChars Char.isWhitespace (parts.getLastD "")
  else
    pyStripChars Char.isWhitespace
      (generated_text.replace (refinePrompt caption_text) "")

/-- What the external refinement runtime does on one call, as observed by
`refine_alt_text`: the model load (performed before the `try` block) raises;
some step inside the `try` block (tokenization, generation, decoding) raises;
or generation succeeds and decodes to the given text. -/
inductive RefineEvent where
  | loadError : RefineEvent
  | genError : RefineEvent
  | genOk : String → RefineEvent
deriving DecidableEq

/-- The `except` branch of `refine_alt_text` (app.py lines 247-251):
`words = caption_text.split()[:10]; return " ".join(words) if words else caption_text`. -/
def fallbackTrunc (caption_text : String) : String :=
  let words := (pySplitWs caption_text).take 10
  if words ≠ [] then joinSp words else caption_text

/-- `refine_alt_text` (app.py lines 198-251).  `load_alt_refinement_model()` is
called at line 203, before the `try` block that starts at line 205, so a load
failure escapes as an exception (`Except.error`); every failure inside the
`try` block lands in the `except` fallback. -/
def refine_alt_text (caption_text : String) (ev : RefineEvent) : Except Unit String :=
  match ev with
  | RefineEvent.loadError => Except.error ()
  | RefineEvent.genError => Except.ok (fallbackTrunc caption_text)
  | RefineEvent.genOk generated_text =>
    Except.ok (refinePost caption_text (extractAlt caption_text generated_text))

/-- What the external captioning runtime does on one call, as observed by
`infer_caption_from_data`: the BLIP load (performed before the `try` block)
raises; some step inside the `try` block (image decode, preprocessing,
generation, text decoding) raises; or captioning succeeds with the given
decoded caption. -/
inductive CaptionEvent where
  | loadError : CaptionEvent
  | pipelineError : CaptionEvent
  | ok : String → CaptionEvent
deriving DecidableEq

/-- `infer_caption_from_data` (app.py lines 254-282).  `load_blip_model()` is
called at line 259 before the `try` block at line 261; every exception inside
the `try` block (decode, preprocess, generate, decode-text) is caught and
replaced by the fixed fallback caption. -/
def infer_caption_from_data (image_data : List Nat) (filename content_type : String)
    (ev : CaptionEvent) : Except Unit String :=
  match ev with
  | CaptionEvent.loadError => Except.error ()
  | CaptionEvent.pipelineError => Except.ok "A beautiful image"
  | CaptionEvent.ok caption => Except.ok caption

/-- `generate_alt_from_caption` (app.py lines 293-307): run the refinement
stage; any exception it raises is caught and the raw caption is returned.  The
function is total by construction — it always produces a string. -/
def generate_alt_from_caption (caption_text : String) (ev : RefineEvent) : String :=
  match refine_alt_text caption_text ev with
  | Except.ok alt_text => alt_text
  | Except.error _ => caption_text

/-- The parts of a `POST /alt` upload and its query flags that `alt_only`
reads: body bytes, declared filename, declared content type (absent or a
string), and the three boolean query flags. -/
structure AltRequest where
  image_data : List Nat
  filename : String
  content_type : Option String
  raw : Bool
  debug : Bool
  include_caption : Bool

/-- A response from the `/alt` endpoint: either an `HTTPException` with a
status code and detail message, or a JSON object given as its key/value
pairs. -/
inductive AltResponse where
  | httpError : Nat → String → AltResponse
  | json : List (String × String) → AltResponse
deriving DecidableEq

/-- The content-type test of app.py line 351:
`not image.content_type or not image.content_type.startswith("image/")`
fails exactly when the content type is present and starts with `image/`
(a missing or empty content type is falsy in Python). -/
def contentTypeOk : Option String → Bool
  | none => false
  | some ct => "image/".data.isPrefixOf ct.data

/-- The `/alt` handler `alt_only` (app.py lines 338-371): read the bytes,
validate content type then non-emptiness, run captioning then refinement, and
shape the JSON by flag precedence `raw or debug`, then `include_caption`, else
alt only.  An exception escaping the pipeline (a model-load failure)
propagates out of the handler (`Except.error`). -/
def alt_only (req : AltRequest) (capEv : CaptionEvent) (refEv : RefineEvent) :
    Except Unit AltResponse :=
  if contentTypeOk req.content_type = false then
    Except.ok (AltResponse.httpError 400 "file must be an image")
  else if req.image_data = [] then
    Except.ok (AltResponse.httpError 400 "empty file")
  else
    match infer_caption_from_data req.image_data req.filename
        (req.content_type.getD "") capEv with
    | Except.error e => Except.error e
    | Except.ok caption_text =>
      let alt_text := generate_alt_from_caption caption_text refEv
      if req.raw || req.debug then
        Except.ok (AltResponse.json [("alt", alt_text), ("raw", alt_text)])
      else if req.include_caption then
        Except.ok (AltResponse.json [("alt", alt_text), ("caption", caption_text)])
      else
        Except.ok (AltResponse.json [("alt", alt_text)])

/-! ### The double-checked-locking model loaders

`load_blip_model` (app.py lines 50-77) and `load_alt_refinement_model`
(lines 80-110) share one structure: a lock-free fast readiness check, then a
lock acquisition, a second readiness check under the lock, the load itself
(setting the module-level handles), and the release.  We embed that structure
as a small-step program over two concurrent callers; `loadCount` counts the
underlying loads performed. -/

/-- Program counter of one caller inside the load routine. -/
inductive LoadPC where
  | start : LoadPC
  | wantLock : LoadPC
  | crit : LoadPC
  | doLoad : LoadPC
  | rel : LoadPC
  | done : LoadPC
deriving DecidableEq

/-- Shared state for two concurrent callers of one load routine: each caller's
program counter, which caller (if any) holds the lock, whether the model and
processor handles are set, and how many underlying loads have run. -/
structure LoadState where
  pc0 : LoadPC
  pc1 : LoadPC
  lockHeld : Option Bool
  loaded : Bool
  loadCount : Nat
deriving DecidableEq

/-- One step of caller 0: fast check, acquire (blocking while held), second
check under the lock, load, release. -/
def step0 (s : LoadState) : LoadState :=
  match s.pc0 with
  | LoadPC.start =>
    if s.loaded then { s with pc0 := LoadPC.done }
    else { s with pc0 := LoadPC.wantLock }
  | LoadPC.wantLock =>
    match s.lockHeld with
    | none => { s with pc0 := LoadPC.crit, lockHeld := some false }
    | some _ => s
  | LoadPC.crit =>
    if s.loaded then { s with pc0 := LoadPC.rel }
    else { s with pc0 := LoadPC.doLoad }
  | LoadPC.doLoad =>
    { s with pc0 := LoadPC.rel, loaded := true, loadCount := s.loadCount + 1 }
  | LoadPC.rel => { s with pc0 := LoadPC.done, lockHeld := none }
  | LoadPC.done => s

/-- One step of caller 1, symmetric to `step0`. -/
def step1 (s : LoadState) : LoadState :=
  match s.pc1 with
  | LoadPC.start =>
    if s.loaded then { s with pc1 := LoadPC.done }
    else { s with pc1 := LoadPC.wantLock }
  | LoadPC.wantLock =>
    match s.lockHeld with
    | none => { s with pc1 := LoadPC.crit, lockHeld := some true }
    | some _ => s
  | LoadPC.crit =>
    if s.loaded then { s with pc1 := LoadPC.rel }
    else { s with pc1 := LoadPC.doLoad }
  | LoadPC.doLoad =>
    { s with pc1 := LoadPC.rel, loaded := true, loadCount := s.loadCount + 1 }
  | LoadPC.rel => { s with pc1 := LoadPC.done, lockHeld := none }
  | LoadPC.done => s

/-- Run one interleaving: each list entry schedules a step of caller 0
(`false`) or caller 1 (`true`). -/
def runLoad (trace : List Bool) (s : LoadState) : LoadState :=
  trace.foldl (fun s t => if t then step1 s else step0 s) s

/-- Both callers at the entry point, lock free, handles unset, no loads yet. -/
def initLoad : LoadState :=
  ⟨LoadPC.start, LoadPC.start, none, false, 0⟩

/-- A later call into the load routine: program counters reset to the entry
point, shared handles and load count retained. -/
def resetCall (s : LoadState) : LoadState :=
  { s with pc0 := LoadPC.start, pc1 := LoadPC.start, lockHeld := none }

/-! ### Helper lemmas about the word splitter and joiner -/

/-- Append of strings is append of their character lists. -/
lemma string_data_append (a b : String) : (a ++ b).data = a.data ++ b.data := by
  cases a
  cases b
  rfl

/-- The character-level value of `joinSp`: words separated by single spaces. -/
def joinCh : List (List Char) → List Char
  | [] => []
  | [w] => w
  | w :: ws => w ++ ' ' :: joinCh ws

/-- `joinSp` on packaged character lists computes `joinCh`. -/
lemma data_joinSp : ∀ ws : List (List Char), (joinSp (ws.map String.mk)).data = joinCh ws
  | [] => rfl
  | [w] => rfl
  | w :: x :: xs => by
    show (String.mk w ++ " " ++ joinSp ((x :: xs).map String.mk)).data = w ++ ' ' :: joinCh (x :: xs)
    rw [string_data_append, string_data_append, data_joinSp (x :: xs)]
    simp

/-- Scanning a whitespace-free word just accumulates its characters. -/
lemma splitWsAux_word (w : List Char) (hw : ∀ c ∈ w, c.isWhitespace = false) :
    ∀ (l acc : List Char), splitWsAux (w ++ l) acc = splitWsAux l (w.reverse ++ acc) := by
  induction w with
  | nil => intro l acc; simp
  | cons c cs ih =>
    intro l acc
    have hc : c.isWhitespace = false := hw c (List.mem_cons_self c cs)
    have hcs : ∀ x ∈ cs, x.isWhitespace = false := fun x hx => hw x (List.mem_cons_of_mem c hx)
    show splitWsAux (c :: (cs ++ l)) acc = _
    rw [splitWsAux, hc]
    simp only [Bool.false_eq_true, if_false, ih hcs l (c :: acc), List.reverse_cons,
      List.append_assoc, List.singleton_append]

/-- Splitting the space-join of nonempty whitespace-free words recovers them. -/
lemma wordsCh_joinCh : ∀ ws : List (List Char),
    (∀ w ∈ ws, w ≠ [] ∧ ∀ c ∈ w, c.isWhitespace = false) →
    wordsCh (joinCh ws) = ws
  | [], _ => rfl
  | [w], h => by
    obtain ⟨hne, hnw⟩ := h w (List.mem_singleton_self w)
    show splitWsAux (joinCh [w]) [] = [w]
    have : joinCh [w] = w ++ [] := by simp [joinCh]
    rw [this, splitWsAux_word w hnw [] []]
    rw [splitWsAux]
    simp [hne]
  | w :: x :: xs, h => by
    obtain ⟨hne, hnw⟩ := h w (List.mem_cons_self w (x :: xs))
    have hrest : ∀ v ∈ x :: xs, v ≠ [] ∧ ∀ c ∈ v, c.isWhitespace = false :=
      fun v hv => h v (List.mem_cons_of_mem w hv)
    show splitWsAux (joinCh (w :: x :: xs)) [] = w :: x :: xs
    have hj : joinCh (w :: x :: xs) = w ++ ' ' :: joinCh (x :: xs) := rfl
    rw [hj, splitWsAux_word w hnw (' ' :: joinCh (x :: xs)) []]
    rw [splitWsAux]
    have hsp : (' ').isWhitespace = true := rfl
    rw [hsp]
    simp only [if_true, List.append_nil]
    have hrne : w.reverse ≠ [] := by simpa using hne
    rw [if_neg hrne]
    have := wordsCh_joinCh (x :: xs) hrest
    rw [wordsCh] at this
    rw [this]
    simp

/-- Every word produced by the splitter is nonempty and whitespace-free. -/
lemma splitWsAux_mem : ∀ (l acc : List Char), (∀ c ∈ acc, c.isWhitespace = false) →
    ∀ w ∈ splitWsAux l acc, w ≠ [] ∧ ∀ c ∈ w, c.isWhitespace = false
  | [], acc, hacc => by
    intro w hw
    rw [splitWsAux] at hw
    by_cases hne : acc = []
    · simp [hne] at hw
    · rw [if_neg hne] at hw
      simp only [List.mem_singleton] at hw
      subst hw
      refine ⟨by simpa using hne, ?_⟩
      intro c hc
      exact hacc c (List.mem_reverse.mp hc)
  | c :: cs, acc, hacc => by
    intro w hw
    rw [splitWsAux] at hw
    by_cases hcw : c.isWhitespace
    · rw [if_pos hcw] at hw
      by_cases hne : acc = []
      · rw [if_pos hne] at hw
        exact splitWsAux_mem cs [] (by simp) w hw
      · rw [if_neg hne] at hw
        rcases List.mem_cons.mp hw with hw | hw
        · subst hw
          refine ⟨by simpa using hne, ?_⟩
          intro x hx
          exact hacc x (List.mem_reverse.mp hx)
        · exact splitWsAux_mem cs [] (by simp) w hw
    · have hcf : c.isWhitespace = false := by simpa using hcw
      rw [hcf] at hw
      simp only [Bool.false_eq_true, if_false] at hw
      refine splitWsAux_mem cs (c :: acc) ?_ w hw
      intro x hx
      rcases List.mem_cons.mp hx with hx | hx
      · subst hx; exact hcf
      · exact hacc x hx

/-- Splitting the space-join of the first `n` words of a split recovers
exactly those words. -/
lemma pySplitWs_joinSp_take (s : String) (n : Nat) :
    pySplitWs (joinSp ((pySplitWs s).take n)) = (pySplitWs s).take n := by
  have hmap : (pySplitWs s).take n = ((wordsCh s.data).take n).map String.mk := by
    rw [pySplitWs, List.map_take]
  have hprops : ∀ w ∈ (wordsCh s.data).take n, w ≠ [] ∧ ∀ c ∈ w, c.isWhitespace = false := by
    intro w hw
    exact splitWsAux_mem s.data [] (by simp) w (List.take_subset n _ hw)
  rw [hmap, pySplitWs, data_joinSp, wordsCh_joinCh _ hprops]

/-! ### Claims about the refinement stage -/

/-- Claim C1 (corrected): `refine_alt_text` catches every exception raised
inside its `try` block (prompting, generation, decoding, post-processing) and
falls back to the first 10 words of the caption joined by single spaces, or
the caption itself if it has no words — but an exception raised by
`load_alt_refinement_model()`, which runs before the `try` block, propagates
to the caller. -/
theorem refine_alt_text_no_raise_after_load (caption_text : String) (ev : RefineEvent)
    (h : ev ≠ RefineEvent.loadError) :
    ∃ s, refine_alt_text caption_text ev = Except.ok s ∧
      (ev = RefineEvent.genError → s = fallbackTrunc caption_text) := by
  cases ev with
  | loadError => exact absurd rfl h
  | genError => exact ⟨fallbackTrunc caption_text, rfl, fun _ => rfl⟩
  | genOk g =>
    exact ⟨refinePost caption_text (extractAlt caption_text g), rfl, fun hc => by cases hc⟩

/-- Witness for C1's amended theorem at a concrete caption and a generation
failure. -/
theorem refine_alt_text_no_raise_after_load_witness :
    ∃ s, refine_alt_text "a white cat" RefineEvent.genError = Except.ok s ∧
      (RefineEvent.genError = RefineEvent.genError → s = fallbackTrunc "a white cat") :=
  refine_alt_text_no_raise_after_load "a white cat" RefineEvent.genError (by decide)

/-- Counterexample to claim C1 as stated: when loading the refinement model
raises, `refine_alt_text` does not return a string — the exception escapes to
the caller. -/
theorem refine_alt_text_load_error_propagates :
    refine_alt_text "a cat on a mat" RefineEvent.loadError = Except.error () := rfl

/-- Claim C2 (corrected): for an extracted text of more than 12 words, the
output is the space-join of its first 10 words after quote/whitespace
stripping (with the caption as fallback were that empty); when stripping
leaves the join unchanged the output has exactly 10 words, but a kept
boundary word made of quote characters can be eaten by the stripping, leaving
fewer than 10. -/
theorem refine_truncates_long (caption_text alt_text : String)
    (h : (pySplitWs alt_text).length > 12) :
    refinePost caption_text alt_text =
      (if stripAll (joinSp ((pySplitWs alt_text).take 10)) = "" then caption_text
       else stripAll (joinSp ((pySplitWs alt_text).take 10))) ∧
    (stripAll (joinSp ((pySplitWs alt_text).take 10)) = joinSp ((pySplitWs alt_text).take 10) →
      (pySplitWs (refinePost caption_text alt_text)).length = 10) := by
  have heq : refinePost caption_text alt_text =
      (if stripAll (joinSp ((pySplitWs alt_text).take 10)) = "" then caption_text
       else stripAll (joinSp ((pySplitWs alt_text).take 10))) := by
    simp only [refinePost, if_pos h]
  refine ⟨heq, ?_⟩
  intro hstrip
  have hj := pySplitWs_joinSp_take alt_text 10
  have hlen : ((pySplitWs alt_text).take 10).length = 10 := by
    rw [List.length_take]
    omega
  have hne : joinSp ((pySplitWs alt_text).take 10) ≠ "" := by
    intro h0
    have hempty : pySplitWs "" = [] := rfl
    rw [h0, hempty] at hj
    rw [← hj] at hlen
    simp at hlen
  rw [heq, hstrip, if_neg hne, hj, hlen]

/-- Witness for C2's amended theorem at a 13-word extracted text of plain
words, where the output has exactly 10 words. -/
theorem refine_truncates_long_witness :
    refinePost "cap" "w1 w2 w3 w4 w5 w6 w7 w8 w9 w10 w11 w12 w13" =
      (if stripAll (joinSp ((pySplitWs "w1 w2 w3 w4 w5 w6 w7 w8 w9 w10 w11 w12 w13").take 10)) = ""
       then "cap"
       else stripAll (joinSp ((pySplitWs "w1 w2 w3 w4 w5 w6 w7 w8 w9 w10 w11 w12 w13").take 10))) ∧
    (stripAll (joinSp ((pySplitWs "w1 w2 w3 w4 w5 w6 w7 w8 w9 w10 w11 w12 w13").take 10)) =
        joinSp ((pySplitWs "w1 w2 w3 w4 w5 w6 w7 w8 w9 w10 w11 w12 w13").take 10) →
      (pySplitWs (refinePost "cap" "w1 w2 w3 w4 w5 w6 w7 w8 w9 w10 w11 w12 w13")).length = 10) :=
  refine_truncates_long "cap" "w1 w2 w3 w4 w5 w6 w7 w8 w9 w10 w11 w12 w13" (by decide)

/-- Counterexample to claim C2 as stated: an extracted text of 13 words whose
first word is a lone double quote; truncation keeps 10 words but the final
quote stripping deletes the quote word, so the output has 9 words, not 10. -/
theorem refine_truncates_long_counterexample :
    (pySplitWs "\" a b c d e f g h i j k l").length > 12 ∧
      (pySplitWs (refinePost "cap" "\" a b c d e f g h i j k l")).length ≠ 10 := by
  decide

/-- Claim C3 (corrected): for an extracted text of fewer than 8 words
(including none), the generated text is discarded in favor of the caption —
but the caption then passes through the final quote/whitespace stripping, so
the output is the stripped caption (the raw caption only when stripping
yields the empty string). -/
theorem refine_short_uses_caption (caption_text alt_text : String)
    (h : (pySplitWs alt_text).length < 8) :
    refinePost caption_text alt_text =
      (if stripAll caption_text = "" then caption_text else stripAll caption_text) := by
  have h12 : ¬ (pySplitWs alt_text).length > 12 := by omega
  simp only [refinePost, if_neg h12, if_pos h]

/-- Witness for C3's amended theorem at a concrete caption and a 1-word
extracted text. -/
theorem refine_short_uses_caption_witness :
    refinePost "a cat sat" "tiny" =
      (if stripAll "a cat sat" = "" then "a cat sat" else stripAll "a cat sat") :=
  refine_short_uses_caption "a cat sat" "tiny" (by decide)

/-- Counterexample to claim C3 as stated: with a quoted caption and a 1-word
extracted text, the output is the caption with its quotes stripped, not the
original caption string. -/
theorem refine_short_uses_caption_counterexample :
    (pySplitWs "tiny").length < 8 ∧ refinePost "\"x\"" "tiny" ≠ "\"x\"" := by
  decide

/-- Claim C4 (confirmed): for an extracted text of 8 to 12 words, the output
is that text after quote/whitespace stripping, or the original caption if
stripping yields the empty string. -/
theorem refine_inband_keeps_generated (caption_text alt_text : String)
    (h8 : 8 ≤ (pySplitWs alt_text).length) (h12 : (pySplitWs alt_text).length ≤ 12) :
    refinePost caption_text alt_text =
      (if stripAll alt_text = "" then caption_text else stripAll alt_text) := by
  have hgt : ¬ (pySplitWs alt_text).length > 12 := by omega
  have hlt : ¬ (pySplitWs alt_text).length < 8 := by omega
  have hz : ¬ (pySplitWs alt_text).length = 0 := by omega
  simp only [refinePost, if_neg hgt, if_neg hlt, if_neg hz]

/-- Witness for C4 at a concrete 8-word extracted text. -/
theorem refine_inband_keeps_generated_witness :
    refinePost "cap" "a b c d e f g h" =
      (if stripAll "a b c d e f g h" = "" then "cap" else stripAll "a b c d e f g h") :=
  refine_inband_keeps_generated "cap" "a b c d e f g h" (by decide) (by decide)

/-! ### Claims about the captioning stage and the orchestrator -/

/-- Claim C5 (confirmed): for every byte input, an exception inside
`infer_caption_from_data`'s `try` block (image decoding, preprocessing,
generation, text decoding) is swallowed and the fixed fallback caption
"A beautiful image" is returned. -/
theorem infer_caption_swallows_pipeline_errors (image_data : List Nat)
    (filename content_type : String) :
    infer_caption_from_data image_data filename content_type CaptionEvent.pipelineError =
      Except.ok "A beautiful image" := rfl

/-- Claim C6 (confirmed): whenever the refinement call raises,
`generate_alt_from_caption` catches the exception and returns the input
caption unchanged; the function itself always returns a string. -/
theorem generate_alt_catches_refinement_errors (caption_text : String) (ev : RefineEvent)
    (h : refine_alt_text caption_text ev = Except.error ()) :
    generate_alt_from_caption caption_text ev = caption_text := by
  rw [generate_alt_from_caption, h]

/-- Witness for C6 at a concrete caption and a refinement-model load
failure. -/
theorem generate_alt_catches_refinement_errors_witness :
    generate_alt_from_caption "a brown dog" RefineEvent.loadError = "a brown dog" :=
  generate_alt_catches_refinement_errors "a brown dog" RefineEvent.loadError rfl

/-! ### Claims about the `/alt` endpoint -/

/-- The caption delivered by a non-throwing captioning event. -/
def captionOf : CaptionEvent → String
  | CaptionEvent.loadError => ""
  | CaptionEvent.pipelineError => "A beautiful image"
  | CaptionEvent.ok caption => caption

/-- A captioning event other than a load failure yields `Except.ok` with its
caption. -/
lemma infer_caption_ok (image_data : List Nat) (filename content_type : String)
    (capEv : CaptionEvent) (h : capEv ≠ CaptionEvent.loadError) :
    infer_caption_from_data image_data filename content_type capEv =
      Except.ok (captionOf capEv) := by
  cases capEv with
  | loadError => exact absurd rfl h
  | pipelineError => rfl
  | ok caption => rfl

/-- On a validated request whose captioning does not raise, `alt_only`
produces the JSON whose fields are selected by the flags. -/
lemma alt_only_valid_eq (req : AltRequest) (capEv : CaptionEvent) (refEv : RefineEvent)
    (h1 : contentTypeOk req.content_type = true) (h2 : req.image_data ≠ [])
    (h3 : capEv ≠ CaptionEvent.loadError) :
    alt_only req capEv refEv = Except.ok (AltResponse.json
      (if req.raw || req.debug then
        [("alt", generate_alt_from_caption (captionOf capEv) refEv),
         ("raw", generate_alt_from_caption (captionOf capEv) refEv)]
       else if req.include_caption then
        [("alt", generate_alt_from_caption (captionOf capEv) refEv),
         ("caption", captionOf capEv)]
       else
        [("alt", generate_alt_from_caption (captionOf capEv) refEv)])) := by
  have h1f : ¬ contentTypeOk req.content_type = false := by simp [h1]
  rw [alt_only, if_neg h1f, if_neg h2,
    infer_caption_ok req.image_data req.filename (req.content_type.getD "") capEv h3]
  by_cases hrd : (req.raw || req.debug) = true <;>
    by_cases hic : req.include_caption = true <;>
      simp [hrd, hic]

/-- Claim C7 (confirmed): `alt_only` answers HTTP 400 with detail
"file must be an image" when the content type is missing or not an image
type, and HTTP 400 with detail "empty file" when the content type is an image
type but the body is empty; the response is the same whatever the model
runtimes would do, so no inference happens on these paths. -/
theorem alt_only_rejects_invalid_uploads (req : AltRequest) (capEv : CaptionEvent)
    (refEv : RefineEvent) :
    (contentTypeOk req.content_type = false →
      alt_only req capEv refEv =
        Except.ok (AltResponse.httpError 400 "file must be an image")) ∧
    (contentTypeOk req.content_type = true → req.image_data = [] →
      alt_only req capEv refEv = Except.ok (AltResponse.httpError 400 "empty file")) := by
  constructor
  · intro h
    rw [alt_only, if_pos h]
  · intro h1 h2
    have h1f : ¬ contentTypeOk req.content_type = false := by simp [h1]
    rw [alt_only, if_neg h1f, if_pos h2]

/-- Witness for C7 at a text upload and at an empty image upload. -/
theorem alt_only_rejects_invalid_uploads_witness :
    alt_only ⟨[7], "f.txt", some "text/plain", false, false, false⟩
        CaptionEvent.pipelineError RefineEvent.genError =
      Except.ok (AltResponse.httpError 400 "file must be an image") ∧
    alt_only ⟨[], "f.png", some "image/png", false, false, false⟩
        CaptionEvent.pipelineError RefineEvent.genError =
      Except.ok (AltResponse.httpError 400 "empty file") :=
  ⟨(alt_only_rejects_invalid_uploads ⟨[7], "f.txt", some "text/plain", false, false, false⟩
      CaptionEvent.pipelineError RefineEvent.genError).1 (by decide),
   (alt_only_rejects_invalid_uploads ⟨[], "f.png", some "image/png", false, false, false⟩
      CaptionEvent.pipelineError RefineEvent.genError).2 (by decide) rfl⟩

/-- Claim C8 (confirmed): on a validated request whose captioning call does
not raise, the JSON fields follow the precedence raw-or-debug, then
include-caption, then alt only, with the caption field equal to the
captioning stage's output. -/
theorem alt_only_response_shape (req : AltRequest) (capEv : CaptionEvent)
    (refEv : RefineEvent)
    (h1 : contentTypeOk req.content_type = true) (h2 : req.image_data ≠ [])
    (h3 : capEv ≠ CaptionEvent.loadError) :
    ∃ caption_text alt_text,
      infer_caption_from_data req.image_data req.filename (req.content_type.getD "") capEv =
        Except.ok caption_text ∧
      alt_text = generate_alt_from_caption caption_text refEv ∧
      alt_only req capEv refEv = Except.ok (AltResponse.json
        (if req.raw || req.debug then [("alt", alt_text), ("raw", alt_text)]
         else if req.include_caption then [("alt", alt_text), ("caption", caption_text)]
         else [("alt", alt_text)])) :=
  ⟨captionOf capEv, generate_alt_from_caption (captionOf capEv) refEv,
    infer_caption_ok req.image_data req.filename (req.content_type.getD "") capEv h3,
    rfl, alt_only_valid_eq req capEv refEv h1 h2 h3⟩

/-- Witness for C8 at a concrete valid request with `include_caption` set. -/
theorem alt_only_response_shape_witness :
    ∃ caption_text alt_text,
      infer_caption_from_data [1, 2] "f.png" ((some "image/png").getD "")
          CaptionEvent.pipelineError = Except.ok caption_text ∧
      alt_text = generate_alt_from_caption caption_text RefineEvent.genError ∧
      alt_only ⟨[1, 2], "f.png", some "image/png", false, false, true⟩
          CaptionEvent.pipelineError RefineEvent.genError =
        Except.ok (AltResponse.json
          (if false || false then [("alt", alt_text), ("raw", alt_text)]
           else if true then [("alt", alt_text), ("caption", caption_text)]
           else [("alt", alt_text)])) :=
  alt_only_response_shape ⟨[1, 2], "f.png", some "image/png", false, false, true⟩
    CaptionEvent.pipelineError RefineEvent.genError (by decide) (by decide) (by decide)

/-- Claim C10 (confirmed): whenever the raw or debug flag is set on a valid
request, the "raw" field of the JSON carries exactly the same string as the
"alt" field — never the unprocessed model generation. -/
theorem alt_only_raw_equals_alt (req : AltRequest) (capEv : CaptionEvent)
    (refEv : RefineEvent)
    (h1 : contentTypeOk req.content_type = true) (h2 : req.image_data ≠ [])
    (h3 : capEv ≠ CaptionEvent.loadError) (h4 : (req.raw || req.debug) = true) :
    ∃ a, alt_only req capEv refEv =
      Except.ok (AltResponse.json [("alt", a), ("raw", a)]) := by
  refine ⟨generate_alt_from_caption (captionOf capEv) refEv, ?_⟩
  rw [alt_only_valid_eq req capEv refEv h1 h2 h3, if_pos h4]

/-- Witness for C10 at a concrete valid request with the raw flag set. -/
theorem alt_only_raw_equals_alt_witness :
    ∃ a, alt_only ⟨[1], "f.png", some "image/png", true, false, false⟩
        CaptionEvent.pipelineError RefineEvent.genError =
      Except.ok (AltResponse.json [("alt", a), ("raw", a)]) :=
  alt_only_raw_equals_alt ⟨[1], "f.png", some "image/png", true, false, false⟩
    CaptionEvent.pipelineError RefineEvent.genError (by decide) (by decide) (by decide) rfl

/-! ### Claim about the model loaders -/

/-- A caller is between lock acquisition and lock release. -/
def inCS (pc : LoadPC) : Prop :=
  pc = LoadPC.crit ∨ pc = LoadPC.doLoad ∨ pc = LoadPC.rel

/-- Inductive invariant of the double-checked-locking loader: the load count
tracks readiness; a caller inside the locked region holds the lock; a caller
past the second check or finished has seen the handles set; a caller about to
load has seen them unset. -/
def LoadInv (s : LoadState) : Prop :=
  (s.loadCount = if s.loaded then 1 else 0) ∧
  (inCS s.pc0 → s.lockHeld = some false) ∧
  (inCS s.pc1 → s.lockHeld = some true) ∧
  ((s.pc0 = LoadPC.done ∨ s.pc0 = LoadPC.rel) → s.loaded = true) ∧
  ((s.pc1 = LoadPC.done ∨ s.pc1 = LoadPC.rel) → s.loaded = true) ∧
  (s.pc0 = LoadPC.doLoad → s.loaded = false) ∧
  (s.pc1 = LoadPC.doLoad → s.loaded = false)

/-- The invariant holds initially. -/
lemma LoadInv_init : LoadInv initLoad := by
  refine ⟨rfl, ?_, ?_, ?_, ?_, ?_, ?_⟩ <;> simp [initLoad, inCS]

/-- A step of caller 0 preserves the invariant. -/
lemma LoadInv_step0 (s : LoadState) (h : LoadInv s) : LoadInv (step0 s) := by
  obtain ⟨p0, p1, lk, ld, cnt⟩ := s
  obtain ⟨h1, h2, h3, h4, h5, h6, h7⟩ := h
  cases p0 <;> cases ld <;>
    rcases lk with _ | b <;>
      simp_all [step0, LoadInv, inCS]

/-- A step of caller 1 preserves the invariant. -/
lemma LoadInv_step1 (s : LoadState) (h : LoadInv s) : LoadInv (step1 s) := by
  obtain ⟨p0, p1, lk, ld, cnt⟩ := s
  obtain ⟨h1, h2, h3, h4, h5, h6, h7⟩ := h
  cases p1 <;> cases ld <;>
    rcases lk with _ | b <;>
      simp_all [step1, LoadInv, inCS]

/-- The invariant is preserved along any interleaving. -/
lemma LoadInv_runLoad (trace : List Bool) (s : LoadState) (h : LoadInv s) :
    LoadInv (runLoad trace s) := by
  induction trace generalizing s with
  | nil => exact h
  | cons t ts ih =>
    have hstep : runLoad (t :: ts) s = runLoad ts (if t then step1 s else step0 s) := rfl
    rw [hstep]
    cases t with
    | false => exact ih _ (by simpa using LoadInv_step0 s h)
    | true => exact ih _ (by simpa using LoadInv_step1 s h)

/-- A state in which the handles are set and nobody is mid-load: from here no
step can reach the load instruction, so the load count never changes. -/
def NoReload (s : LoadState) : Prop :=
  s.loaded = true ∧ s.pc0 ≠ LoadPC.doLoad ∧ s.pc1 ≠ LoadPC.doLoad

/-- One step from a `NoReload` state stays `NoReload` with the same count. -/
lemma NoReload_step (t : Bool) (s : LoadState) (h : NoReload s) :
    NoReload (if t then step1 s else step0 s) ∧
      (if t then step1 s else step0 s).loadCount = s.loadCount := by
  obtain ⟨p0, p1, lk, ld, cnt⟩ := s
  obtain ⟨h1, h2, h3⟩ := h
  cases t with
  | false =>
    cases p0 <;> rcases lk with _ | b <;> simp_all [step0, NoReload]
  | true =>
    cases p1 <;> rcases lk with _ | b <;> simp_all [step1, NoReload]

/-- Any interleaving from a `NoReload` state keeps the load count. -/
lemma NoReload_runLoad (trace : List Bool) (s : LoadState) (h : NoReload s) :
    NoReload (runLoad trace s) ∧ (runLoad trace s).loadCount = s.loadCount := by
  induction trace generalizing s with
  | nil => exact ⟨h, rfl⟩
  | cons t ts ih =>
    have hstep : runLoad (t :: ts) s = runLoad ts (if t then step1 s else step0 s) := rfl
    obtain ⟨hJ, hc⟩ := NoReload_step t s h
    obtain ⟨hJ2, hc2⟩ := ih _ hJ
    exact ⟨by rwa [hstep], by rw [hstep, hc2, hc]⟩

/-- Claim C9 (confirmed): in the double-checked-locking loader shared by
`load_blip_model` and `load_alt_refinement_model`, any interleaving of two
concurrent callers that runs both to completion performs exactly one
underlying load and leaves the handles set; and once the handles are set, a
later call (again under any interleaving of two callers) performs no further
load. -/
theorem load_model_idempotent (trace : List Bool)
    (h : (runLoad trace initLoad).pc0 = LoadPC.done ∧
      (runLoad trace initLoad).pc1 = LoadPC.done) :
    (runLoad trace initLoad).loadCount = 1 ∧
    (runLoad trace initLoad).loaded = true ∧
    ∀ trace2 : List Bool,
      (runLoad trace2 (resetCall (runLoad trace initLoad))).loadCount = 1 := by
  obtain ⟨h1, h2, h3, h4, h5, h6, h7⟩ := LoadInv_runLoad trace initLoad LoadInv_init
  have hld : (runLoad trace initLoad).loaded = true := h4 (Or.inl h.1)
  have hcnt : (runLoad trace initLoad).loadCount = 1 := by
    rw [h1, hld]
    rfl
  refine ⟨hcnt, hld, ?_⟩
  intro trace2
  have hJ : NoReload (resetCall (runLoad trace initLoad)) :=
    ⟨by simpa [resetCall] using hld, by simp [resetCall], by simp [resetCall]⟩
  rw [(NoReload_runLoad trace2 _ hJ).2]
  simpa [resetCall] using hcnt

/-- Witness for C9: a concrete interleaving in which caller 0 does the load
and caller 1 takes the fast path, followed by a later concurrent call that
loads nothing. -/
theorem load_model_idempotent_witness :
    (runLoad [false, false, false, false, false, true] initLoad).loadCount = 1 ∧
    (runLoad [false, false, false, false, false, true] initLoad).loaded = true ∧
    (runLoad [true, false]
      (resetCall (runLoad [false, false, false, false, false, true] initLoad))).loadCount = 1 := by
  have h := load_model_idempotent [false, false, false, false, false, true] (by decide)
  exact ⟨h.1, h.2.1, h.2.2 [true, false]⟩
